import Mathlib

/-!
Verification of the geocat-viz utility module (`src/util.py`).

The development shallowly embeds the functions of `util.py` that the
claims concern:

* `set_map_boundary` — validation, the three-way vertex-generation
  dispatch (antimeridian crossing / full global circle / ordinary box),
  and the padded extent.  Python's `range` builtin is embedded as
  `pythonRange` (over `Int`, for integer inputs) and as `pyRangeQ`
  (over `ℚ`, which also models the `TypeError` raised by `range` on
  non-integer arguments and the `ValueError` raised on a zero step).
* `set_titles_and_labels` and `set_axes_limits_and_ticks` — conditional
  mutations of an axes record.
* `truncate_colormap` — name generation and registration of the
  truncated colormap in a registry.

Stateful effects on the matplotlib axes are modelled by explicit state
passing: a function that would mutate the axes returns the new axes
record, and `set_map_boundary` returns (vertices, extent) inside
`Except`, so an error result carries no mutation by construction.
-/

/-- Error values raised by the embedded Python code: `ValueError` and
`TypeError`, each with its message. -/
inductive PyErr where
  | valueError (msg : String)
  | typeError (msg : String)
deriving DecidableEq

/-- Message of the `TypeError` raised by Python's `range` when given a
non-integer argument (modulo quoting of the type name). -/
def floatErrMsg : String := "float object cannot be interpreted as an integer"

/-- Python's `range(a, b, step)` on integers: the ascending or
descending arithmetic progression from `a` stepping by `step`,
stopping strictly before `b`.  `range(a, b, 0)` is treated separately
in `pyRangeQ`; here a zero step yields `[]`. -/
def pythonRange (a b step : Int) : List Int :=
  if 0 < step then
    (List.range ((b - a + step - 1) / step).toNat).map (fun i : ℕ => a + step * (i : Int))
  else if step < 0 then
    (List.range ((a - b + (-step) - 1) / (-step)).toNat).map (fun i : ℕ => a + step * (i : Int))
  else []

/-- Python's `range(a, b, step)` over rationals, as the embedded
`set_map_boundary` calls it: a non-integer argument raises `TypeError`
(CPython: `float object cannot be interpreted as an integer`), a zero
step raises `ValueError`, otherwise the integer range results. -/
def pyRangeQ (a b step : ℚ) : Except PyErr (List Int) :=
  if a.den = 1 ∧ b.den = 1 ∧ step.den = 1 then
    if step = 0 then .error (.valueError "range() arg 3 must not be zero")
    else .ok (pythonRange a.num b.num step.num)
  else .error (.typeError floatErrMsg)

/-- Vertices of the antimeridian-crossing branch of `set_map_boundary`
(`util.py` lines 340–345), specialized to integer inputs. -/
def antimeridianVertices (lon0 lon1 lat0 lat1 res : Int) : List (Int × Int) :=
  (pythonRange lon0 (180 + 1) res).map (fun lon => (lon, lat0)) ++
  (pythonRange (-180) (lon1 + 1) res).map (fun lon => (lon, lat0)) ++
  (pythonRange lat0 (lat1 + 1) res).map (fun lat => (lon1, lat)) ++
  (pythonRange lon1 (-180 - 1) (-res)).map (fun lon => (lon, lat1)) ++
  (pythonRange 180 (lon0 - 1) (-res)).map (fun lon => (lon, lat1)) ++
  (pythonRange lat1 (lat0 - 1) (-res)).map (fun lat => (lon0, lat))

/-- Vertices of the full-global-circle branch of `set_map_boundary`
(`util.py` line 348): a ring at latitude `lat0` sweeping longitude 0
to 360. -/
def ringVertices (lat0 res : Int) : List (Int × Int) :=
  (pythonRange 0 (360 + 1) res).map (fun lon => (lon, lat0))

/-- Vertices of the ordinary-box branch of `set_map_boundary`
(`util.py` lines 351–354), specialized to integer inputs: south, east,
north, west edges anticlockwise from the southwest corner. -/
def boxVertices (lon0 lon1 lat0 lat1 res : Int) : List (Int × Int) :=
  (pythonRange lon0 (lon1 + 1) res).map (fun lon => (lon, lat0)) ++
  (pythonRange lat0 (lat1 + 1) res).map (fun lat => (lon1, lat)) ++
  (pythonRange lon1 (lon0 - 1) (-res)).map (fun lon => (lon, lat1)) ++
  (pythonRange lat1 (lat0 - 1) (-res)).map (fun lat => (lon0, lat))

/-- The three-way vertex-generation dispatch of `set_map_boundary`
(`util.py` lines 339–355), specialized to integer inputs, in the
code's branch order: the antimeridian test `lon_range[0] >= 0 and
lon_range[1] <= 0` is checked first, then the full-circle test, then
the ordinary box. -/
def setMapBoundaryVerts (lon0 lon1 lat0 lat1 res : Int) : List (Int × Int) :=
  if lon0 ≥ 0 ∧ lon1 ≤ 0 then antimeridianVertices lon0 lon1 lat0 lat1 res
  else if (lon0 = 180 ∨ lon0 = -180) ∧ (lon1 = 180 ∨ lon1 = -180) then
    ringVertices lat0 res
  else boxVertices lon0 lon1 lat0 lat1 res

/-- Antimeridian-crossing branch over ℚ, with Python `range`'s
type errors propagated in the order the six comprehensions evaluate. -/
def antimeridianVerticesQ (lon0 lon1 lat0 lat1 res : ℚ) : Except PyErr (List (ℚ × ℚ)) :=
  (pyRangeQ lon0 (180 + 1) res).bind fun s1 =>
  (pyRangeQ (-180) (lon1 + 1) res).bind fun s2 =>
  (pyRangeQ lat0 (lat1 + 1) res).bind fun e =>
  (pyRangeQ lon1 (-180 - 1) (-res)).bind fun n1 =>
  (pyRangeQ 180 (lon0 - 1) (-res)).bind fun n2 =>
  (pyRangeQ lat1 (lat0 - 1) (-res)).map fun w =>
    s1.map (fun lon => ((lon : ℚ), lat0)) ++
    s2.map (fun lon => ((lon : ℚ), lat0)) ++
    e.map (fun lat => (lon1, (lat : ℚ))) ++
    n1.map (fun lon => ((lon : ℚ), lat1)) ++
    n2.map (fun lon => ((lon : ℚ), lat1)) ++
    w.map (fun lat => (lon0, (lat : ℚ)))

/-- Full-global-circle branch over ℚ: note that no input coordinate is
used as a `range` endpoint, only the literals 0, 361 and `res`. -/
def ringVerticesQ (lat0 res : ℚ) : Except PyErr (List (ℚ × ℚ)) :=
  (pyRangeQ 0 (360 + 1) res).map fun r =>
    r.map (fun lon => ((lon : ℚ), lat0))

/-- Ordinary-box branch over ℚ. -/
def boxVerticesQ (lon0 lon1 lat0 lat1 res : ℚ) : Except PyErr (List (ℚ × ℚ)) :=
  (pyRangeQ lon0 (lon1 + 1) res).bind fun s =>
  (pyRangeQ lat0 (lat1 + 1) res).bind fun e =>
  (pyRangeQ lon1 (lon0 - 1) (-res)).bind fun n =>
  (pyRangeQ lat1 (lat0 - 1) (-res)).map fun w =>
    s.map (fun lon => ((lon : ℚ), lat0)) ++
    e.map (fun lat => (lon1, (lat : ℚ))) ++
    n.map (fun lon => ((lon : ℚ), lat1)) ++
    w.map (fun lat => (lon0, (lat : ℚ)))

/-- The vertex-generation dispatch of `set_map_boundary` over ℚ. -/
def setMapBoundaryVertsQ (lon0 lon1 lat0 lat1 res : ℚ) : Except PyErr (List (ℚ × ℚ)) :=
  if lon0 ≥ 0 ∧ lon1 ≤ 0 then antimeridianVerticesQ lon0 lon1 lat0 lat1 res
  else if (lon0 = 180 ∨ lon0 = -180) ∧ (lon1 = 180 ∨ lon1 = -180) then
    ringVerticesQ lat0 res
  else boxVerticesQ lon0 lon1 lat0 lat1 res

/-- `set_map_boundary` (`util.py` lines 263–363) over ℚ: the four
fail-fast validation checks in source order with their exact messages,
then vertex generation, then the padded extent
`[lon0 - west_pad, lon1 + east_pad, lat0 - south_pad, lat1 + north_pad]`.
The result pairs the boundary vertices with the extent; an error
result carries neither, modelling that the axes object is unmutated
when an exception is raised before `ax.set_boundary`/`ax.set_extent`. -/
def set_map_boundary (lon0 lon1 lat0 lat1 north_pad south_pad east_pad west_pad res : ℚ) :
    Except PyErr (List (ℚ × ℚ) × (ℚ × ℚ × ℚ × ℚ)) :=
  if lon0 ≥ lon1 ∧ ¬(lon0 > 0 ∧ lon1 < 0) then
    .error (.valueError "The first longitude value must be strictly less than the second longitude value unless the region crosses over the antimeridian")
  else if lat0 ≥ lat1 then
    .error (.valueError "The first latitude value must be strictly less than the second latitude value")
  else if lon0 > 180 ∨ lon0 < -180 ∨ lon1 > 180 ∨ lon1 < -180 then
    .error (.valueError "The longitudes must be within the range [-180, 180] inclusive")
  else if lat0 > 90 ∨ lat0 < -90 ∨ lat1 > 90 ∨ lat1 < -90 then
    .error (.valueError "The latitudes must be within the range [-90, 90] inclusive")
  else
    (setMapBoundaryVertsQ lon0 lon1 lat0 lat1 res).map fun vs =>
      (vs, (lon0 - west_pad, lon1 + east_pad, lat0 - south_pad, lat1 + north_pad))

/-- The disjunction of `set_map_boundary`'s four validation rules
(`util.py` lines 323–334). -/
def violatesValidation (lon0 lon1 lat0 lat1 : ℚ) : Prop :=
  (lon0 ≥ lon1 ∧ ¬(lon0 > 0 ∧ lon1 < 0)) ∨
  lat0 ≥ lat1 ∨
  (lon0 > 180 ∨ lon0 < -180 ∨ lon1 > 180 ∨ lon1 < -180) ∨
  (lat0 > 90 ∨ lat0 < -90 ∨ lat1 > 90 ∨ lat1 < -90)

instance (lon0 lon1 lat0 lat1 : ℚ) : Decidable (violatesValidation lon0 lon1 lat0 lat1) := by
  unfold violatesValidation; infer_instance

/-- `true` exactly on `Except.ok` results. -/
def exceptOk {ε α : Type} : Except ε α → Bool
  | .ok _ => true
  | .error _ => false

/-- State recorded by `ax.set_title`: the text, the font size and the
vertical position `y`. -/
structure TitlePos where
  text : String
  fontsize : ℚ
  y : ℚ
deriving DecidableEq

/-- The slice of matplotlib axes state that the cosmetic setters
touch: the three title slots (`loc='center'`, `'left'`, `'right'`),
the axis labels with their font sizes, the limits, the tick locations
and the tick labels.  `none` models "never set". -/
structure Axes where
  title : Option TitlePos
  leftTitle : Option TitlePos
  rightTitle : Option TitlePos
  xlabelText : Option (String × ℚ)
  ylabelText : Option (String × ℚ)
  xlimState : Option (ℚ × ℚ)
  ylimState : Option (ℚ × ℚ)
  xticksState : Option (List ℚ)
  yticksState : Option (List ℚ)
  xticklabelsState : Option (List String)
  yticklabelsState : Option (List String)
deriving DecidableEq

/-- `set_titles_and_labels` (`util.py` lines 68–143): conditionally
sets the main title (font size `maintitlefontsize + 2` at `y = 1.12`
when a left or right title is present, else `maintitlefontsize` at
`y = 1.04`), the left and right titles at `y = 1.04`, and the axis
labels; every `None` argument leaves its slot untouched. -/
def set_titles_and_labels (ax : Axes) (maintitle : Option String) (maintitlefontsize : ℚ)
    (lefttitle : Option String) (lefttitlefontsize : ℚ)
    (righttitle : Option String) (righttitlefontsize : ℚ)
    (xlabel : Option String) (ylabel : Option String) (labelfontsize : ℚ) : Axes :=
  let ax1 := match maintitle with
    | none => ax
    | some t =>
      if lefttitle.isSome || righttitle.isSome then
        { ax with title := some ⟨t, maintitlefontsize + 2, 1.12⟩ }
      else
        { ax with title := some ⟨t, maintitlefontsize, 1.04⟩ }
  let ax2 := match lefttitle with
    | none => ax1
    | some t => { ax1 with leftTitle := some ⟨t, lefttitlefontsize, 1.04⟩ }
  let ax3 := match righttitle with
    | none => ax2
    | some t => { ax2 with rightTitle := some ⟨t, righttitlefontsize, 1.04⟩ }
  let ax4 := match xlabel with
    | none => ax3
    | some t => { ax3 with xlabelText := some (t, labelfontsize) }
  match ylabel with
  | none => ax4
  | some t => { ax4 with ylabelText := some (t, labelfontsize) }

/-- `set_axes_limits_and_ticks` (`util.py` lines 145–196): applies
ticks, tick labels and limits in the source's order; every `None`
argument leaves its slot untouched. -/
def set_axes_limits_and_ticks (ax : Axes) (xlim ylim : Option (ℚ × ℚ))
    (xticks yticks : Option (List ℚ))
    (xticklabels yticklabels : Option (List String)) : Axes :=
  let ax1 := match xticks with
    | none => ax
    | some v => { ax with xticksState := some v }
  let ax2 := match yticks with
    | none => ax1
    | some v => { ax1 with yticksState := some v }
  let ax3 := match xticklabels with
    | none => ax2
    | some v => { ax2 with xticklabelsState := some v }
  let ax4 := match yticklabels with
    | none => ax3
    | some v => { ax3 with yticklabelsState := some v }
  let ax5 := match xlim with
    | none => ax4
    | some v => { ax4 with xlimState := some v }
  match ylim with
  | none => ax5
  | some v => { ax5 with ylimState := some v }

/-- An RGBA color. -/
def Color : Type := ℚ × ℚ × ℚ × ℚ

/-- A matplotlib colormap as `truncate_colormap` consumes it: a name
and a sampling function `cmap(x)`. -/
structure Colormap where
  name : String
  colorAt : ℚ → Color

/-- The colormap built by `LinearSegmentedColormap.from_list`: the
registered name together with the color list it was built from. -/
structure TruncCmap where
  name : String
  colors : List Color

/-- `np.linspace(a, b, n)`: `n` evenly spaced samples from `a` to `b`,
both endpoints included. -/
def linspace (a b : ℚ) (n : ℕ) : List ℚ :=
  if n = 1 then [a]
  else (List.range n).map (fun i : ℕ => a + (b - a) * (i : ℚ) / ((n : ℚ) - 1))

/-- Python's fixed-point formatting `a:.2f` of a rational: two digits
after the decimal point. -/
def fmtPy2f (x : ℚ) : String :=
  let n : Int := ⌊x * 100 + 1 / 2⌋
  let sign := if n < 0 then "-" else ""
  let a := n.natAbs
  sign ++ toString (a / 100) ++ "." ++
    (if a % 100 < 10 then "0" else "") ++ toString (a % 100)

/-- The name `truncate_colormap` auto-generates
(`util.py` line 228): the source colormap's name and the two bounds
formatted to two decimal places, in a fixed template. -/
def truncAutoName (cmapName : String) (minval maxval : ℚ) : String :=
  "trunc(" ++ cmapName ++ "," ++ fmtPy2f minval ++ "," ++ fmtPy2f maxval ++ ")"

/-- A process-wide colormap registry, as `matplotlib.cm` exposes it:
name-indexed lookup, with registration overwriting any previous entry
(the spec's contract: subsequent lookups by that name resolve to the
registered map). -/
def Registry : Type := String → Option TruncCmap

/-- `truncate_colormap` (`util.py` lines 198–234): when `name` is
absent (Python `if not name:` — `None` or the empty string), generate
the name from the source colormap's name and the bounds; build the
truncated colormap from `cmap(np.linspace(minval, maxval, n))`;
register it; return it together with the updated registry. -/
def truncate_colormap (reg : Registry) (cmap : Colormap) (minval maxval : ℚ) (n : ℕ)
    (name : Option String) : TruncCmap × Registry :=
  let nm := match name with
    | none => truncAutoName cmap.name minval maxval
    | some s => if s = "" then truncAutoName cmap.name minval maxval else s
  let new_cmap : TruncCmap := ⟨nm, (linspace minval maxval n).map cmap.colorAt⟩
  (new_cmap, fun s => if s = nm then some new_cmap else reg s)

theorem linspace_length (a b : ℚ) (n : ℕ) : (linspace a b n).length = n := by
  unfold linspace
  split_ifs with h
  · simp [h]
  · simp

set_option maxRecDepth 100000 in
/-- C1: the claim says lon_range (180, -180) and (-180, 180) both produce the
full-circle ring of vertices at latitude lat_min spanning longitude 0 to 360.
The code dispatches (180, -180) to the antimeridian branch first (the test
`lon_range[0] >= 0 and lon_range[1] <= 0` matches), so the full-circle `elif`
arm that explicitly lists `lon_range[0] == 180` is unreachable for it and a
degenerate two-sided polygon results instead of the ring; only (-180, 180)
yields the ring. -/
theorem set_map_boundary_reversed_full_circle_dispatch_bug :
    setMapBoundaryVerts 180 (-180) 60 90 1 = antimeridianVertices 180 (-180) 60 90 1 ∧
    setMapBoundaryVerts 180 (-180) 60 90 1 ≠ ringVertices 60 1 ∧
    setMapBoundaryVerts (-180) 180 60 90 1 = ringVertices 60 1 := by decide

set_option maxRecDepth 400000 in
/-- C3: for the antimeridian example lon_range = (170, -170),
lat_range = (-10, 10), res = 1, the generated vertices follow the six-edge
anticlockwise order starting at the southwest corner (170, -10), every
longitude lies in [-180, 180], the south edge jumps from longitude 180
directly to -180 (indices 10, 11), and the north edge jumps back from -180
directly to 180 (indices 53, 54). -/
theorem set_map_boundary_antimeridian_example :
    setMapBoundaryVerts 170 (-170) (-10) 10 1 =
      antimeridianVertices 170 (-170) (-10) 10 1 ∧
    (antimeridianVertices 170 (-170) (-10) 10 1).head? = some (170, -10) ∧
    (antimeridianVertices 170 (-170) (-10) 10 1).all
      (fun p => decide (-180 ≤ p.1) && decide (p.1 ≤ 180)) = true ∧
    (antimeridianVertices 170 (-170) (-10) 10 1)[10]? = some (180, -10) ∧
    (antimeridianVertices 170 (-170) (-10) 10 1)[11]? = some (-180, -10) ∧
    (antimeridianVertices 170 (-170) (-10) 10 1)[53]? = some (-180, 10) ∧
    (antimeridianVertices 170 (-170) (-10) 10 1)[54]? = some (180, 10) := by decide

/-- C6: two calls of `truncate_colormap` with identical
(cmap, minval, maxval, n) and no explicit name compute the same generated
name, and each call registers its result under that name. -/
theorem truncate_colormap_same_args_same_name (reg : Registry) (cmap : Colormap)
    (minval maxval : ℚ) (n : ℕ) :
    (truncate_colormap reg cmap minval maxval n none).1.name =
      (truncate_colormap (truncate_colormap reg cmap minval maxval n none).2
        cmap minval maxval n none).1.name ∧
    (truncate_colormap reg cmap minval maxval n none).2
        (truncate_colormap reg cmap minval maxval n none).1.name =
      some (truncate_colormap reg cmap minval maxval n none).1 ∧
    (truncate_colormap (truncate_colormap reg cmap minval maxval n none).2
        cmap minval maxval n none).2
        (truncate_colormap (truncate_colormap reg cmap minval maxval n none).2
          cmap minval maxval n none).1.name =
      some (truncate_colormap (truncate_colormap reg cmap minval maxval n none).2
        cmap minval maxval n none).1 := by
  refine ⟨rfl, ?_, ?_⟩ <;> simp [truncate_colormap]

/-- C9: the auto-generated name does not depend on `n`: two calls with the
same cmap and bounds but different `n` produce the same name; the colormaps
differ (their color lists have lengths `n1` and `n2`), and the second
registration overwrites the first in the registry. -/
theorem truncate_colormap_name_ignores_n (reg : Registry) (cmap : Colormap)
    (minval maxval : ℚ) (n1 n2 : ℕ) (h : n1 ≠ n2) :
    (truncate_colormap reg cmap minval maxval n1 none).1.name =
      (truncate_colormap (truncate_colormap reg cmap minval maxval n1 none).2
        cmap minval maxval n2 none).1.name ∧
    (truncate_colormap reg cmap minval maxval n1 none).1 ≠
      (truncate_colormap (truncate_colormap reg cmap minval maxval n1 none).2
        cmap minval maxval n2 none).1 ∧
    (truncate_colormap (truncate_colormap reg cmap minval maxval n1 none).2
        cmap minval maxval n2 none).2
        (truncate_colormap reg cmap minval maxval n1 none).1.name =
      some (truncate_colormap (truncate_colormap reg cmap minval maxval n1 none).2
        cmap minval maxval n2 none).1 := by
  refine ⟨rfl, ?_, ?_⟩
  · intro hEq
    apply h
    have hlen := congrArg (fun c => c.colors.length) hEq
    simpa [truncate_colormap, linspace_length] using hlen
  · simp [truncate_colormap]

/-- Witness for C9 at cmap name "viridis", bounds (0, 1), n = 2 then n = 3. -/
theorem truncate_colormap_name_ignores_n_witness :
    (2 ≠ 3) ∧
    ((truncate_colormap (fun _ => none) ⟨"viridis", fun _ => (0, 0, 0, 1)⟩ 0 1 2 none).1.name =
      (truncate_colormap
        (truncate_colormap (fun _ => none) ⟨"viridis", fun _ => (0, 0, 0, 1)⟩ 0 1 2 none).2
        ⟨"viridis", fun _ => (0, 0, 0, 1)⟩ 0 1 3 none).1.name ∧
    (truncate_colormap (fun _ => none) ⟨"viridis", fun _ => (0, 0, 0, 1)⟩ 0 1 2 none).1 ≠
      (truncate_colormap
        (truncate_colormap (fun _ => none) ⟨"viridis", fun _ => (0, 0, 0, 1)⟩ 0 1 2 none).2
        ⟨"viridis", fun _ => (0, 0, 0, 1)⟩ 0 1 3 none).1 ∧
    (truncate_colormap
        (truncate_colormap (fun _ => none) ⟨"viridis", fun _ => (0, 0, 0, 1)⟩ 0 1 2 none).2
        ⟨"viridis", fun _ => (0, 0, 0, 1)⟩ 0 1 3 none).2
        (truncate_colormap (fun _ => none) ⟨"viridis", fun _ => (0, 0, 0, 1)⟩ 0 1 2 none).1.name =
      some (truncate_colormap
        (truncate_colormap (fun _ => none) ⟨"viridis", fun _ => (0, 0, 0, 1)⟩ 0 1 2 none).2
        ⟨"viridis", fun _ => (0, 0, 0, 1)⟩ 0 1 3 none).1) :=
  ⟨by decide, truncate_colormap_name_ignores_n _ _ 0 1 2 3 (by decide)⟩

/-- C7: passing `None` for every optional content parameter of
`set_titles_and_labels` and of `set_axes_limits_and_ticks` leaves the axes
record unchanged. -/
theorem cosmetic_setters_none_noop (ax : Axes) (mfs lfs rfs lbfs : ℚ) :
    set_titles_and_labels ax none mfs none lfs none rfs none none lbfs = ax ∧
    set_axes_limits_and_ticks ax none none none none none none = ax :=
  ⟨rfl, rfl⟩

/-- C10: when maintitle is given together with a left or right title, it is
applied with font size `maintitlefontsize + 2` at `y = 1.12`; with neither, it
is applied with exactly `maintitlefontsize` at `y = 1.04`. -/
theorem set_titles_and_labels_maintitle_placement (ax : Axes) (t : String) (mfs : ℚ)
    (lefttitle : Option String) (lfs : ℚ) (righttitle : Option String) (rfs : ℚ)
    (xlabel ylabel : Option String) (lbfs : ℚ) :
    (set_titles_and_labels ax (some t) mfs lefttitle lfs righttitle rfs
        xlabel ylabel lbfs).title =
      some (if lefttitle.isSome || righttitle.isSome then ⟨t, mfs + 2, 1.12⟩
            else ⟨t, mfs, 1.04⟩) := by
  cases lefttitle <;> cases righttitle <;> cases xlabel <;> cases ylabel <;> rfl

theorem den_one_int (q : ℚ) (h : q.den = 1) : ∃ z : ℤ, q = z :=
  ⟨q.num, ((Rat.den_eq_one_iff q).mp h).symm⟩

theorem den_one_add_one {q : ℚ} (h : q.den = 1) : (q + 1).den = 1 := by
  obtain ⟨z, rfl⟩ := den_one_int q h
  rw [show ((z : ℚ) + 1) = ((z + 1 : ℤ) : ℚ) by push_cast; ring]
  exact Rat.den_intCast _

theorem den_one_sub_one {q : ℚ} (h : q.den = 1) : (q - 1).den = 1 := by
  obtain ⟨z, rfl⟩ := den_one_int q h
  rw [show ((z : ℚ) - 1) = ((z - 1 : ℤ) : ℚ) by push_cast; ring]
  exact Rat.den_intCast _

theorem den_one_of_add_one {q : ℚ} (h : (q + 1).den = 1) : q.den = 1 := by
  have h2 := den_one_sub_one h
  rwa [add_sub_cancel_right] at h2

theorem pyRangeQ_ok {a b s : ℚ} (ha : a.den = 1) (hb : b.den = 1) (hs : s.den = 1)
    (h0 : s ≠ 0) : pyRangeQ a b s = .ok (pythonRange a.num b.num s.num) := by
  unfold pyRangeQ
  rw [if_pos ⟨ha, hb, hs⟩, if_neg h0]

theorem pyRangeQ_typeError {a b s : ℚ} (h : ¬(a.den = 1 ∧ b.den = 1 ∧ s.den = 1)) :
    pyRangeQ a b s = .error (.typeError floatErrMsg) := by
  unfold pyRangeQ
  rw [if_neg h]

theorem pyRangeQ_cases (a b : ℚ) {s : ℚ} (h0 : s ≠ 0) :
    (∃ l, pyRangeQ a b s = .ok l) ∨ pyRangeQ a b s = .error (.typeError floatErrMsg) := by
  unfold pyRangeQ
  by_cases hd : a.den = 1 ∧ b.den = 1 ∧ s.den = 1
  · rw [if_pos hd, if_neg h0]
    exact Or.inl ⟨_, rfl⟩
  · rw [if_neg hd]
    exact Or.inr rfl

theorem exceptMap_error_iff {ε α β : Type} (f : α → β) (e : Except ε α) (err : ε) :
    e.map f = .error err ↔ e = .error err := by
  cases e <;> simp [Except.map]

theorem antimeridianVerticesQ_not_valueError (lon0 lon1 lat0 lat1 : ℚ) {res : ℚ}
    (hr : res.den = 1) (h0 : res ≠ 0) (m : String) :
    antimeridianVerticesQ lon0 lon1 lat0 lat1 res ≠ .error (.valueError m) := by
  have hr2 : (-res).den = 1 := by rw [Rat.neg_den]; exact hr
  have h02 : -res ≠ 0 := neg_ne_zero.mpr h0
  unfold antimeridianVerticesQ
  rcases pyRangeQ_cases lon0 (180 + 1) h0 with ⟨l1, hA⟩ | hA
  · rw [hA]
    rcases pyRangeQ_cases (-180) (lon1 + 1) h0 with ⟨l2, hB⟩ | hB
    · rw [hB]
      rcases pyRangeQ_cases lat0 (lat1 + 1) h0 with ⟨l3, hC⟩ | hC
      · rw [hC]
        rcases pyRangeQ_cases lon1 (-180 - 1) h02 with ⟨l4, hD⟩ | hD
        · rw [hD]
          rcases pyRangeQ_cases 180 (lon0 - 1) h02 with ⟨l5, hE⟩ | hE
          · rw [hE]
            rcases pyRangeQ_cases lat1 (lat0 - 1) h02 with ⟨l6, hF⟩ | hF
            · rw [hF]; simp [Except.bind, Except.map]
            · rw [hF]; simp [Except.bind, Except.map, floatErrMsg]
          · rw [hE]; simp [Except.bind]
        · rw [hD]; simp [Except.bind]
      · rw [hC]; simp [Except.bind]
    · rw [hB]; simp [Except.bind]
  · rw [hA]; simp [Except.bind]

theorem ringVerticesQ_not_valueError (lat0 : ℚ) {res : ℚ}
    (h0 : res ≠ 0) (m : String) :
    ringVerticesQ lat0 res ≠ .error (.valueError m) := by
  unfold ringVerticesQ
  rcases pyRangeQ_cases 0 (360 + 1) h0 with ⟨l, hA⟩ | hA
  · rw [hA]; simp [Except.map]
  · rw [hA]; simp [Except.map, floatErrMsg]

theorem boxVerticesQ_not_valueError (lon0 lon1 lat0 lat1 : ℚ) {res : ℚ}
    (hr : res.den = 1) (h0 : res ≠ 0) (m : String) :
    boxVerticesQ lon0 lon1 lat0 lat1 res ≠ .error (.valueError m) := by
  have hr2 : (-res).den = 1 := by rw [Rat.neg_den]; exact hr
  have h02 : -res ≠ 0 := neg_ne_zero.mpr h0
  unfold boxVerticesQ
  rcases pyRangeQ_cases lon0 (lon1 + 1) h0 with ⟨l1, hA⟩ | hA
  · rw [hA]
    rcases pyRangeQ_cases lat0 (lat1 + 1) h0 with ⟨l2, hB⟩ | hB
    · rw [hB]
      rcases pyRangeQ_cases lon1 (lon0 - 1) h02 with ⟨l3, hC⟩ | hC
      · rw [hC]
        rcases pyRangeQ_cases lat1 (lat0 - 1) h02 with ⟨l4, hD⟩ | hD
        · rw [hD]; simp [Except.bind, Except.map]
        · rw [hD]; simp [Except.bind, Except.map, floatErrMsg]
      · rw [hC]; simp [Except.bind]
    · rw [hB]; simp [Except.bind]
  · rw [hA]; simp [Except.bind]

theorem setMapBoundaryVertsQ_not_valueError (lon0 lon1 lat0 lat1 : ℚ) {res : ℚ}
    (hr : res.den = 1) (h0 : res ≠ 0) (m : String) :
    setMapBoundaryVertsQ lon0 lon1 lat0 lat1 res ≠ .error (.valueError m) := by
  unfold setMapBoundaryVertsQ
  split_ifs
  · exact antimeridianVerticesQ_not_valueError lon0 lon1 lat0 lat1 hr h0 m
  · exact ringVerticesQ_not_valueError lat0 h0 m
  · exact boxVerticesQ_not_valueError lon0 lon1 lat0 lat1 hr h0 m

theorem antimeridianVerticesQ_ok (lon0 lon1 lat0 lat1 : ℚ) {res : ℚ}
    (h1 : lon0.den = 1) (h2 : lon1.den = 1) (h3 : lat0.den = 1) (h4 : lat1.den = 1)
    (hr : res.den = 1) (h0 : res ≠ 0) :
    ∃ vs, antimeridianVerticesQ lon0 lon1 lat0 lat1 res = .ok vs := by
  have hr2 : (-res).den = 1 := by rw [Rat.neg_den]; exact hr
  have h02 : -res ≠ 0 := neg_ne_zero.mpr h0
  unfold antimeridianVerticesQ
  rw [pyRangeQ_ok h1 (by norm_num) hr h0,
      pyRangeQ_ok (by norm_num) (den_one_add_one h2) hr h0,
      pyRangeQ_ok h3 (den_one_add_one h4) hr h0,
      pyRangeQ_ok h2 (by norm_num) hr2 h02,
      pyRangeQ_ok (by norm_num) (den_one_sub_one h1) hr2 h02,
      pyRangeQ_ok h4 (den_one_sub_one h3) hr2 h02]
  exact ⟨_, rfl⟩

theorem ringVerticesQ_ok (lat0 : ℚ) {res : ℚ} (hr : res.den = 1) (h0 : res ≠ 0) :
    ∃ vs, ringVerticesQ lat0 res = .ok vs := by
  unfold ringVerticesQ
  rw [pyRangeQ_ok (by norm_num) (by norm_num) hr h0]
  exact ⟨_, rfl⟩

theorem boxVerticesQ_ok (lon0 lon1 lat0 lat1 : ℚ) {res : ℚ}
    (h1 : lon0.den = 1) (h2 : lon1.den = 1) (h3 : lat0.den = 1) (h4 : lat1.den = 1)
    (hr : res.den = 1) (h0 : res ≠ 0) :
    ∃ vs, boxVerticesQ lon0 lon1 lat0 lat1 res = .ok vs := by
  have hr2 : (-res).den = 1 := by rw [Rat.neg_den]; exact hr
  have h02 : -res ≠ 0 := neg_ne_zero.mpr h0
  unfold boxVerticesQ
  rw [pyRangeQ_ok h1 (den_one_add_one h2) hr h0,
      pyRangeQ_ok h3 (den_one_add_one h4) hr h0,
      pyRangeQ_ok h2 (den_one_sub_one h1) hr2 h02,
      pyRangeQ_ok h4 (den_one_sub_one h3) hr2 h02]
  exact ⟨_, rfl⟩

theorem setMapBoundaryVertsQ_ok (lon0 lon1 lat0 lat1 : ℚ) {res : ℚ}
    (h1 : lon0.den = 1) (h2 : lon1.den = 1) (h3 : lat0.den = 1) (h4 : lat1.den = 1)
    (hr : res.den = 1) (h0 : res ≠ 0) :
    ∃ vs, setMapBoundaryVertsQ lon0 lon1 lat0 lat1 res = .ok vs := by
  unfold setMapBoundaryVertsQ
  split_ifs
  · exact antimeridianVerticesQ_ok lon0 lon1 lat0 lat1 h1 h2 h3 h4 hr h0
  · exact ringVerticesQ_ok lat0 hr h0
  · exact boxVerticesQ_ok lon0 lon1 lat0 lat1 h1 h2 h3 h4 hr h0

/-- C4: with the resolution an integer step as the spec's data model fixes it
(nonzero, so that `range` itself cannot raise), `set_map_boundary` raises a
ValueError exactly when the input violates one of the four validation rules;
the error is raised before any vertex generation or axes mutation, so an
error result carries no boundary and no extent. -/
theorem set_map_boundary_valueError_iff (lon0 lon1 lat0 lat1 np sp ep wp : ℚ) {res : ℚ}
    (hr : res.den = 1) (h0 : res ≠ 0) :
    (∃ m, set_map_boundary lon0 lon1 lat0 lat1 np sp ep wp res = .error (.valueError m)) ↔
      violatesValidation lon0 lon1 lat0 lat1 := by
  unfold set_map_boundary violatesValidation
  split_ifs with hv1 hv2 hv3 hv4
  · exact iff_of_true ⟨_, rfl⟩ (Or.inl hv1)
  · exact iff_of_true ⟨_, rfl⟩ (Or.inr (Or.inl hv2))
  · exact iff_of_true ⟨_, rfl⟩ (Or.inr (Or.inr (Or.inl hv3)))
  · exact iff_of_true ⟨_, rfl⟩ (Or.inr (Or.inr (Or.inr hv4)))
  · apply iff_of_false
    · rintro ⟨m, hm⟩
      rw [exceptMap_error_iff] at hm
      exact setMapBoundaryVertsQ_not_valueError lon0 lon1 lat0 lat1 hr h0 m hm
    · exact fun h => h.elim hv1 (fun h => h.elim hv2 (fun h => h.elim hv3 hv4))

/-- Witness for C4 at the claim's instance lon_range = (10, 5),
lat_range = (0, 10), default pads and resolution. -/
theorem set_map_boundary_valueError_iff_witness :
    ((1 : ℚ).den = 1 ∧ (1 : ℚ) ≠ 0) ∧
    ((∃ m, set_map_boundary 10 5 0 10 0 0 0 0 1 = .error (.valueError m)) ↔
      violatesValidation 10 5 0 10) :=
  ⟨⟨by norm_num, by norm_num⟩,
    set_map_boundary_valueError_iff 10 5 0 10 0 0 0 0 (by norm_num) (by norm_num)⟩

/-- C5: for every input passing validation (with integer coordinates and a
nonzero integer resolution, so vertex generation succeeds), the extent is
exactly `[lon_min - west_pad, lon_max + east_pad, lat_min - south_pad,
lat_max + north_pad]`, and the generated boundary vertices are the same for
any two choices of the four pads. -/
theorem set_map_boundary_extent_and_pad_independence
    (lon0 lon1 lat0 lat1 np sp ep wp np2 sp2 ep2 wp2 : ℚ) {res : ℚ}
    (hok : ¬ violatesValidation lon0 lon1 lat0 lat1)
    (h1 : lon0.den = 1) (h2 : lon1.den = 1) (h3 : lat0.den = 1) (h4 : lat1.den = 1)
    (hr : res.den = 1) (h0 : res ≠ 0) :
    ∃ vs, set_map_boundary lon0 lon1 lat0 lat1 np sp ep wp res =
        .ok (vs, (lon0 - wp, lon1 + ep, lat0 - sp, lat1 + np)) ∧
      set_map_boundary lon0 lon1 lat0 lat1 np2 sp2 ep2 wp2 res =
        .ok (vs, (lon0 - wp2, lon1 + ep2, lat0 - sp2, lat1 + np2)) := by
  unfold violatesValidation at hok
  have hv1 : ¬(lon0 ≥ lon1 ∧ ¬(lon0 > 0 ∧ lon1 < 0)) := fun h => hok (Or.inl h)
  have hv2 : ¬(lat0 ≥ lat1)  := fun h => hok (Or.inr (Or.inl h))
  have hv3 : ¬(lon0 > 180 ∨ lon0 < -180 ∨ lon1 > 180 ∨ lon1 < -180) :=
    fun h => hok (Or.inr (Or.inr (Or.inl h)))
  have hv4 : ¬(lat0 > 90 ∨ lat0 < -90 ∨ lat1 > 90 ∨ lat1 < -90) :=
    fun h => hok (Or.inr (Or.inr (Or.inr h)))
  obtain ⟨vs, hvs⟩ := setMapBoundaryVertsQ_ok lon0 lon1 lat0 lat1 h1 h2 h3 h4 hr h0
  refine ⟨vs, ?_, ?_⟩ <;>
    · unfold set_map_boundary
      rw [if_neg hv1, if_neg hv2, if_neg hv3, if_neg hv4, hvs]
      rfl

/-- Witness for C5 at lon_range = (10, 20), lat_range = (0, 5), res = 1,
comparing pads (1, 2, 3, 4) against pads (0, 0, 0, 0). -/
theorem set_map_boundary_extent_and_pad_independence_witness :
    (¬ violatesValidation 10 20 0 5) ∧
    (∃ vs, set_map_boundary 10 20 0 5 1 2 3 4 1 =
        .ok (vs, ((10 : ℚ) - 4, (20 : ℚ) + 3, (0 : ℚ) - 2, (5 : ℚ) + 1)) ∧
      set_map_boundary 10 20 0 5 0 0 0 0 1 =
        .ok (vs, ((10 : ℚ) - 0, (20 : ℚ) + 0, (0 : ℚ) - 0, (5 : ℚ) + 0))) :=
  ⟨by decide,
    set_map_boundary_extent_and_pad_independence 10 20 0 5 1 2 3 4 0 0 0 0
      (by decide) (by norm_num) (by norm_num) (by norm_num) (by norm_num)
      (by norm_num) (by norm_num)⟩

theorem antimeridianVerticesQ_typeError (lon0 lon1 lat0 lat1 : ℚ) {res : ℚ}
    (hr : res.den = 1) (h0 : res ≠ 0)
    (hni : ¬(lon0.den = 1 ∧ lon1.den = 1 ∧ lat0.den = 1 ∧ lat1.den = 1)) :
    antimeridianVerticesQ lon0 lon1 lat0 lat1 res = .error (.typeError floatErrMsg) := by
  unfold antimeridianVerticesQ
  by_cases hA : lon0.den = 1
  · by_cases hB : lon1.den = 1
    · rw [pyRangeQ_ok hA (by norm_num) hr h0,
          pyRangeQ_ok (by norm_num) (den_one_add_one hB) hr h0,
          pyRangeQ_typeError (fun hc => hni ⟨hA, hB, hc.1, den_one_of_add_one hc.2.1⟩)]
      simp [Except.bind]
    · rw [pyRangeQ_ok hA (by norm_num) hr h0,
          pyRangeQ_typeError (fun hc => hB (den_one_of_add_one hc.2.1))]
      simp [Except.bind]
  · rw [pyRangeQ_typeError (fun hc => hA hc.1)]
    simp [Except.bind]

theorem boxVerticesQ_typeError (lon0 lon1 lat0 lat1 : ℚ) {res : ℚ}
    (hr : res.den = 1) (h0 : res ≠ 0)
    (hni : ¬(lon0.den = 1 ∧ lon1.den = 1 ∧ lat0.den = 1 ∧ lat1.den = 1)) :
    boxVerticesQ lon0 lon1 lat0 lat1 res = .error (.typeError floatErrMsg) := by
  unfold boxVerticesQ
  by_cases hA : lon0.den = 1 ∧ lon1.den = 1
  · rw [pyRangeQ_ok hA.1 (den_one_add_one hA.2) hr h0,
        pyRangeQ_typeError (fun hc => hni ⟨hA.1, hA.2, hc.1, den_one_of_add_one hc.2.1⟩)]
    simp [Except.bind]
  · rw [pyRangeQ_typeError (fun hc => hA ⟨hc.1, den_one_of_add_one hc.2.1⟩)]
    simp [Except.bind]

/-- C8 (amended): for inputs that pass validation, have some non-integer
coordinate, and are not the full-circle input (-180, 180) — the only input
reaching the branch whose `range` calls use no input coordinate — vertex
generation raises a TypeError (not the documented ValueError) because edge
discretization steps with Python's integer `range`; the error result carries
no boundary and no extent, so the axes object is unmutated. -/
theorem set_map_boundary_noninteger_typeError
    (lon0 lon1 lat0 lat1 np sp ep wp : ℚ) {res : ℚ}
    (hok : ¬ violatesValidation lon0 lon1 lat0 lat1)
    (hfc : ¬(lon0 = -180 ∧ lon1 = 180))
    (hni : ¬(lon0.den = 1 ∧ lon1.den = 1 ∧ lat0.den = 1 ∧ lat1.den = 1))
    (hr : res.den = 1) (h0 : res ≠ 0) :
    set_map_boundary lon0 lon1 lat0 lat1 np sp ep wp res =
      .error (.typeError floatErrMsg) := by
  unfold violatesValidation at hok
  have hv1 : ¬(lon0 ≥ lon1 ∧ ¬(lon0 > 0 ∧ lon1 < 0)) := fun h => hok (Or.inl h)
  have hv2 : ¬(lat0 ≥ lat1) := fun h => hok (Or.inr (Or.inl h))
  have hv3 : ¬(lon0 > 180 ∨ lon0 < -180 ∨ lon1 > 180 ∨ lon1 < -180) :=
    fun h => hok (Or.inr (Or.inr (Or.inl h)))
  have hv4 : ¬(lat0 > 90 ∨ lat0 < -90 ∨ lat1 > 90 ∨ lat1 < -90) :=
    fun h => hok (Or.inr (Or.inr (Or.inr h)))
  have hverts : setMapBoundaryVertsQ lon0 lon1 lat0 lat1 res =
      .error (.typeError floatErrMsg) := by
    unfold setMapBoundaryVertsQ
    split_ifs with hc1 hc2
    · exact antimeridianVerticesQ_typeError lon0 lon1 lat0 lat1 hr h0 hni
    · exfalso
      rcases hc2 with ⟨hL, hR⟩
      rcases hL with hL | hL <;> rcases hR with hR | hR
      · exact hv1 ⟨by rw [hL, hR], by rw [hL, hR]; norm_num⟩
      · exact hc1 ⟨by rw [hL]; norm_num, by rw [hR]; norm_num⟩
      · exact hfc ⟨hL, hR⟩
      · exact hv1 ⟨by rw [hL, hR], by rw [hL, hR]; norm_num⟩
    · exact boxVerticesQ_typeError lon0 lon1 lat0 lat1 hr h0 hni
  unfold set_map_boundary
  rw [if_neg hv1, if_neg hv2, if_neg hv3, if_neg hv4, hverts]
  rfl

/-- Counterexample to C8 as stated: lon_range = (-180, 180) with the
non-integer lat_range = (60.5, 90) passes validation, contains a non-integer
value, yet raises no error at all — the full-circle branch's only `range`
call is `range(0, 361, res)`, which uses no input coordinate. -/
theorem set_map_boundary_noninteger_ok_counterexample :
    (¬ violatesValidation (-180) 180 (60.5) 90) ∧
    (60.5 : ℚ).den ≠ 1 ∧
    exceptOk (set_map_boundary (-180) 180 (60.5) 90 0 0 0 0 1) = true := by
  refine ⟨by norm_num [violatesValidation], by norm_num [Rat.den], ?_⟩
  have hd : setMapBoundaryVertsQ (-180) 180 (60.5) 90 1 = ringVerticesQ (60.5) 1 := by
    unfold setMapBoundaryVertsQ
    rw [if_neg (by norm_num), if_pos (by norm_num)]
  obtain ⟨vs, hvs⟩ := @ringVerticesQ_ok (60.5 : ℚ) 1 (by norm_num) (by norm_num)
  unfold set_map_boundary
  rw [if_neg (by norm_num), if_neg (by norm_num), if_neg (by norm_num),
      if_neg (by norm_num), hd, hvs]
  rfl

/-- Witness for the amended C8 at the claim's instance
lon_range = (10.5, 20.5), lat_range = (0, 10), default pads and res. -/
theorem set_map_boundary_noninteger_typeError_witness :
    (¬ violatesValidation (10.5) (20.5) 0 10 ∧
      ¬((10.5 : ℚ) = -180 ∧ (20.5 : ℚ) = 180) ∧
      ¬((10.5 : ℚ).den = 1 ∧ (20.5 : ℚ).den = 1 ∧ (0 : ℚ).den = 1 ∧ (10 : ℚ).den = 1) ∧
      (1 : ℚ).den = 1 ∧ (1 : ℚ) ≠ 0) ∧
    set_map_boundary (10.5) (20.5) 0 10 0 0 0 0 1 = .error (.typeError floatErrMsg) :=
  ⟨⟨by norm_num [violatesValidation], by norm_num, by norm_num [Rat.den],
      by norm_num, by norm_num⟩,
    set_map_boundary_noninteger_typeError 10.5 20.5 0 10 0 0 0 0
      (by norm_num [violatesValidation]) (by norm_num) (by norm_num [Rat.den])
      (by norm_num) (by norm_num)⟩

theorem pythonRange_one (a b : Int) :
    pythonRange a b 1 = (List.range (b - a).toNat).map (fun i : ℕ => a + (i : Int)) := by
  unfold pythonRange
  rw [if_pos (by norm_num : (0 : Int) < 1)]
  have h1 : (b - a + 1 - 1) / 1 = b - a := by omega
  rw [h1]
  simp

theorem pythonRange_negOne (a b : Int) :
    pythonRange a b (-1) = (List.range (a - b).toNat).map (fun i : ℕ => a - (i : Int)) := by
  unfold pythonRange
  rw [if_neg (by norm_num : ¬(0 : Int) < -1), if_pos (by norm_num : (-1 : Int) < 0)]
  have h1 : (a - b + -(-1 : Int) - 1) / -(-1 : Int) = a - b := by norm_num
  rw [h1]
  have h2 : (fun i : ℕ => a + (-1 : Int) * (i : Int)) = fun i : ℕ => a - (i : Int) := by
    funext i
    ring
  rw [h2]

theorem mem_range_map_add {a x : Int} {n : ℕ}
    (hx : x ∈ (List.range n).map (fun i : ℕ => a + (i : Int))) : a ≤ x ∧ x < a + n := by
  simp only [List.mem_map, List.mem_range] at hx
  obtain ⟨i, hi, he⟩ := hx
  omega

theorem mem_range_map_sub {a x : Int} {n : ℕ}
    (hx : x ∈ (List.range n).map (fun i : ℕ => a - (i : Int))) : a - n < x ∧ x ≤ a := by
  simp only [List.mem_map, List.mem_range] at hx
  obtain ⟨i, hi, he⟩ := hx
  omega

theorem chain_le_range_map_add (a : Int) (n : ℕ) :
    List.Chain' (· ≤ ·) ((List.range n).map (fun i : ℕ => a + (i : Int))) :=
  List.Pairwise.chain'
    ((List.pairwise_lt_range n).map _ (fun i j (h : i < j) => by omega))

theorem chain_ge_range_map_sub (a : Int) (n : ℕ) :
    List.Chain' (· ≥ ·) ((List.range n).map (fun i : ℕ => a - (i : Int))) :=
  List.Pairwise.chain'
    ((List.pairwise_lt_range n).map _ (fun i j (h : i < j) => by omega))

theorem chain_map_const {α β : Type} (r : β → β → Prop) (c : β) (h : r c c) (l : List α) :
    List.Chain' r (l.map (fun _ => c)) := by
  induction l with
  | nil => simp
  | cons x xs ih =>
    cases xs with
    | nil => simp
    | cons y ys =>
      rw [List.map_cons, List.map_cons]
      rw [List.map_cons] at ih
      exact List.chain'_cons.mpr ⟨h, ih⟩

theorem head_range_map {α : Type} (f : ℕ → α) {n : ℕ} (h : 0 < n) :
    ((List.range n).map f).head? = some (f 0) := by
  obtain ⟨m, rfl⟩ : ∃ m, n = m + 1 := ⟨n - 1, by omega⟩
  rw [List.range_succ_eq_map]
  simp

theorem getLast_range_map {α : Type} (f : ℕ → α) {n : ℕ} (h : 0 < n) :
    ((List.range n).map f).getLast? = some (f (n - 1)) := by
  obtain ⟨m, rfl⟩ : ∃ m, n = m + 1 := ⟨n - 1, by omega⟩
  rw [show m + 1 = Nat.succ m from rfl, List.range_succ, List.map_append]
  simp

set_option linter.unusedVariables false in
/-- C2: for integer ranges with lon_min < lon_max (both in [-180, 180], not
both endpoints in the set of poles of the antimeridian test), lat_min <
lat_max (both in [-90, 90]) and res = 1, `set_map_boundary` takes the
ordinary-box branch and produces a closed vertex sequence starting and ending
at the southwest corner, whose longitude component is non-decreasing then
non-increasing across the four edges, and whose vertices all lie in — and
attain every side of — the bounding box [lon_min, lon_max] × [lat_min,
lat_max]. -/
theorem set_map_boundary_box_branch (lon0 lon1 lat0 lat1 : Int)
    (hlon : lon0 < lon1) (hlonlo : -180 ≤ lon0) (hlonhi : lon1 ≤ 180)
    (hne : ¬((lon0 = 180 ∨ lon0 = -180) ∧ (lon1 = 180 ∨ lon1 = -180)))
    (hlat : lat0 < lat1) (hlatlo : -90 ≤ lat0) (hlathi : lat1 ≤ 90) :
    setMapBoundaryVerts lon0 lon1 lat0 lat1 1 = boxVertices lon0 lon1 lat0 lat1 1 ∧
    (setMapBoundaryVerts lon0 lon1 lat0 lat1 1).head? = some (lon0, lat0) ∧
    (setMapBoundaryVerts lon0 lon1 lat0 lat1 1).getLast? = some (lon0, lat0) ∧
    (∃ up down, (setMapBoundaryVerts lon0 lon1 lat0 lat1 1).map Prod.fst = up ++ down ∧
      List.Chain' (· ≤ ·) up ∧ List.Chain' (· ≥ ·) down) ∧
    (∀ p ∈ setMapBoundaryVerts lon0 lon1 lat0 lat1 1,
      lon0 ≤ p.1 ∧ p.1 ≤ lon1 ∧ lat0 ≤ p.2 ∧ p.2 ≤ lat1) ∧
    (lon0, lat0) ∈ setMapBoundaryVerts lon0 lon1 lat0 lat1 1 ∧
    (lon1, lat0) ∈ setMapBoundaryVerts lon0 lon1 lat0 lat1 1 ∧
    (lon1, lat1) ∈ setMapBoundaryVerts lon0 lon1 lat0 lat1 1 ∧
    (lon0, lat1) ∈ setMapBoundaryVerts lon0 lon1 lat0 lat1 1 := by
  have hdisp : setMapBoundaryVerts lon0 lon1 lat0 lat1 1 =
      boxVertices lon0 lon1 lat0 lat1 1 := by
    unfold setMapBoundaryVerts
    rw [if_neg (by omega : ¬(lon0 ≥ 0 ∧ lon1 ≤ 0)), if_neg hne]
  have hbox : boxVertices lon0 lon1 lat0 lat1 1 =
      (List.range (lon1 + 1 - lon0).toNat).map (fun i : ℕ => (lon0 + (i : Int), lat0)) ++
      (List.range (lat1 + 1 - lat0).toNat).map (fun i : ℕ => (lon1, lat0 + (i : Int))) ++
      (List.range (lon1 - (lon0 - 1)).toNat).map (fun i : ℕ => (lon1 - (i : Int), lat1)) ++
      (List.range (lat1 - (lat0 - 1)).toNat).map (fun i : ℕ => (lon0, lat1 - (i : Int))) := by
    unfold boxVertices
    rw [pythonRange_one, pythonRange_one, pythonRange_negOne, pythonRange_negOne]
    simp only [List.map_map]
    rfl
  rw [hdisp, hbox]
  refine ⟨rfl, ?_, ?_, ?_, ?_, ?_, ?_, ?_, ?_⟩
  · rw [List.head?_append, List.head?_append, List.head?_append,
        head_range_map _ (by omega : 0 < (lon1 + 1 - lon0).toNat)]
    simp
  · rw [List.getLast?_append,
        getLast_range_map _ (by omega : 0 < (lat1 - (lat0 - 1)).toNat)]
    simp only [Option.or_some, Option.some.injEq, Prod.mk.injEq]
    exact ⟨by trivial, by omega⟩
  · refine ⟨(List.range (lon1 + 1 - lon0).toNat).map (fun i : ℕ => lon0 + (i : Int)) ++
        (List.range (lat1 + 1 - lat0).toNat).map (fun _ : ℕ => lon1),
      (List.range (lon1 - (lon0 - 1)).toNat).map (fun i : ℕ => lon1 - (i : Int)) ++
        (List.range (lat1 - (lat0 - 1)).toNat).map (fun _ : ℕ => lon0), ?_, ?_, ?_⟩
    · simp only [List.map_append, List.map_map, List.append_assoc]
      rfl
    · refine List.Chain'.append (chain_le_range_map_add lon0 _)
        (chain_map_const _ lon1 le_rfl _) ?_
      intro x hx y hy
      rw [getLast_range_map _ (by omega : 0 < (lon1 + 1 - lon0).toNat)] at hx
      rw [head_range_map _ (by omega : 0 < (lat1 + 1 - lat0).toNat)] at hy
      simp at hx hy
      omega
    · refine List.Chain'.append (chain_ge_range_map_sub lon1 _)
        (chain_map_const (· ≥ ·) lon0 le_rfl _) ?_
      intro x hx y hy
      rw [getLast_range_map _ (by omega : 0 < (lon1 - (lon0 - 1)).toNat)] at hx
      rw [head_range_map _ (by omega : 0 < (lat1 - (lat0 - 1)).toNat)] at hy
      simp at hx hy
      omega
  · intro p hp
    simp only [List.mem_append, List.mem_map, List.mem_range] at hp
    rcases hp with ((⟨i, hi, rfl⟩ | ⟨i, hi, rfl⟩) | ⟨i, hi, rfl⟩) | ⟨i, hi, rfl⟩ <;>
      refine ⟨?_, ?_, ?_, ?_⟩ <;> simp <;> omega
  · simp only [List.mem_append, List.mem_map, List.mem_range]
    exact Or.inl (Or.inl (Or.inl ⟨0, by omega, by simp⟩))
  · simp only [List.mem_append, List.mem_map, List.mem_range]
    exact Or.inl (Or.inl (Or.inr ⟨0, by omega, by simp⟩))
  · simp only [List.mem_append, List.mem_map, List.mem_range]
    refine Or.inl (Or.inr ⟨0, by omega, ?_⟩)
    simp
  · simp only [List.mem_append, List.mem_map, List.mem_range]
    refine Or.inr ⟨0, by omega, ?_⟩
    simp

/-- Witness for C2 at lon_range = (10, 20), lat_range = (0, 5), res = 1. -/
theorem set_map_boundary_box_branch_witness :
    ((10 : Int) < 20 ∧ (0 : Int) < 5 ∧
      ¬(((10 : Int) = 180 ∨ (10 : Int) = -180) ∧ ((20 : Int) = 180 ∨ (20 : Int) = -180))) ∧
    (setMapBoundaryVerts 10 20 0 5 1 = boxVertices 10 20 0 5 1 ∧
    (setMapBoundaryVerts 10 20 0 5 1).head? = some (10, 0) ∧
    (setMapBoundaryVerts 10 20 0 5 1).getLast? = some (10, 0) ∧
    (∃ up down, (setMapBoundaryVerts 10 20 0 5 1).map Prod.fst = up ++ down ∧
      List.Chain' (· ≤ ·) up ∧ List.Chain' (· ≥ ·) down) ∧
    (∀ p ∈ setMapBoundaryVerts 10 20 0 5 1,
      10 ≤ p.1 ∧ p.1 ≤ 20 ∧ 0 ≤ p.2 ∧ p.2 ≤ 5) ∧
    (10, 0) ∈ setMapBoundaryVerts 10 20 0 5 1 ∧
    (20, 0) ∈ setMapBoundaryVerts 10 20 0 5 1 ∧
    (20, 5) ∈ setMapBoundaryVerts 10 20 0 5 1 ∧
    (10, 5) ∈ setMapBoundaryVerts 10 20 0 5 1) :=
  ⟨⟨by decide, by decide, by decide⟩,
    set_map_boundary_box_branch 10 20 0 5 (by decide) (by decide) (by decide)
      (by decide) (by decide) (by decide) (by decide)⟩
